import Mathlib

/-!
Verification development for the fleet hardware-discovery and
deployment-planning engine of this repository
(`src/utils/preflight_checker.py`).

The Python code is shallowly embedded: Python `float` facet values are
modelled as `Rat`, Python `int` as `Int`/`Nat`, the mutable
`NodeCapabilities` dataclass as a record threaded through explicit
update functions, and remote command execution as an oracle
(`RemoteHost`) describing what each probe's commands would return.
Python's `sorted(..., key=..., reverse=True)` is a stable sort and is
modelled with `List.mergeSort` (which is stable) under the comparator
"priority greater or equal".  Fallible operations return `Except`.
-/

namespace Preflight

/-- Input row of `discover_nodes`: one entry of the caller-supplied node
list (`node_info['hostname' | 'ip_address' | 'username']`). -/
structure NodeInfo where
  hostname : String
  ip_address : String
  username : String
deriving DecidableEq, Repr

/-- One parsed row of the `lsblk -d ... --json` output consumed by
`_discover_storage_info`; field defaults mirror the `device.get(k, default)`
calls in the Python loop. -/
structure BlockDevice where
  name : String := ""
  size : String := "0G"
  type : String := ""
  mountpoint : String := ""
  rota : String := "1"
deriving DecidableEq, Repr

/-- The record appended to `node.storage_devices` by
`_discover_storage_info`. -/
structure StorageDeviceRec where
  name : String
  size_gb : Rat
  type : String
  mountpoint : String
  rotational : Bool
deriving DecidableEq, Repr

/-- The record appended to `node.gpu_devices` by `_discover_gpu_info`. -/
structure GpuDeviceRec where
  index : Int
  name : String
  memory_gb : Rat
  type : String
deriving DecidableEq, Repr

/-- The record appended to `node.network_interfaces` by
`_discover_network_info`. -/
structure NetworkInterfaceRec where
  name : String
  speed_gbps : Rat
  ip_addresses : List String
  state : String
deriving DecidableEq, Repr

/-- The `NodeCapabilities` dataclass.  Field defaults are the dataclass
defaults, including `recommended_role = "worker"` and
`recommended_priority = 1`. -/
structure NodeCapabilities where
  hostname : String
  ip_address : String
  username : String
  ssh_key_path : String
  cpu_cores : Nat := 0
  cpu_model : String := ""
  cpu_frequency : Rat := 0
  total_memory_gb : Rat := 0
  available_memory_gb : Rat := 0
  storage_devices : List StorageDeviceRec := []
  total_storage_gb : Rat := 0
  fast_storage_gb : Rat := 0
  gpu_devices : List GpuDeviceRec := []
  total_gpu_memory_gb : Rat := 0
  gpu_count : Nat := 0
  network_interfaces : List NetworkInterfaceRec := []
  primary_interface : String := ""
  network_speed_gbps : Rat := 0
  os_name : String := ""
  os_version : String := ""
  kernel_version : String := ""
  docker_installed : Bool := false
  containerd_installed : Bool := false
  kubernetes_installed : Bool := false
  recommended_role : String := "worker"
  recommended_priority : Int := 1
deriving DecidableEq, Repr

/-- Python `str.strip()` over the underlying character list. -/
def stripChars (cs : List Char) : List Char :=
  ((cs.dropWhile Char.isWhitespace).reverse.dropWhile Char.isWhitespace).reverse

/-- Python's substring test `sub in s` over character lists. -/
def containsSub (sub : List Char) : List Char → Bool
  | [] => sub.isEmpty
  | c :: rest => sub.isPrefixOf (c :: rest) || containsSub sub rest

/-- Decimal number parsing backing `float(...)` in `_parse_size_to_gb`,
covering the numeral forms produced by `lsblk` sizes: optional
whitespace and sign, digits, optional single decimal point. -/
def pyFloat (cs : List Char) : Option Rat :=
  let s := stripChars cs
  let (neg, s) :=
    match s with
    | '-' :: rest => (true, rest)
    | '+' :: rest => (false, rest)
    | _ => (false, s)
  let digitsVal : List Char → Option Nat := fun ds =>
    if ds.isEmpty then none
    else ds.foldlM (fun acc c =>
      if c.isDigit then some (acc * 10 + (c.toNat - 48)) else none) 0
  let intPart := s.takeWhile (fun c => c ≠ '.')
  match s.dropWhile (fun c => c ≠ '.') with
  | [] => (digitsVal intPart).map fun n => if neg then -(n : Rat) else (n : Rat)
  | _ :: fracPart =>
      if fracPart.contains '.' then none
      else if intPart.isEmpty && fracPart.isEmpty then none
      else do
        let ip ← if intPart.isEmpty then some 0 else digitsVal intPart
        let fp ← if fracPart.isEmpty then some 0 else digitsVal fracPart
        let v : Rat := (ip : Rat) + (fp : Rat) / ((10 : Rat) ^ fracPart.length)
        some (if neg then -v else v)

/-- `PreflightChecker._parse_size_to_gb`: parse an `lsblk` size string to
GB, returning `0.0` on any parse failure (the bare `except`).
`strip().upper()` and the one-character `endswith` tests are modelled
over the character list. -/
def parse_size_to_gb (size_str : String) : Rat :=
  let s := (stripChars size_str.data).map Char.toUpper
  if s.getLast? = some 'G' then (pyFloat s.dropLast).getD 0
  else if s.getLast? = some 'T' then ((pyFloat s.dropLast).map (· * 1024)).getD 0
  else if s.getLast? = some 'M' then ((pyFloat s.dropLast).map (· / 1024)).getD 0
  else ((pyFloat s).map (· / ((1024 : Rat) ^ 3))).getD 0

/-- `PreflightChecker._classify_gpu` (`'a100' in gpu_name.lower()` and
so on, in source order). -/
def classify_gpu (gpu_name : String) : String :=
  let s := gpu_name.data.map Char.toLower
  if containsSub "a100".data s then "A100"
  else if containsSub "h100".data s then "H100"
  else if containsSub "v100".data s then "V100"
  else if containsSub "rtx 4090".data s then "RTX4090"
  else if containsSub "rtx 4080".data s then "RTX4080"
  else if containsSub "m6000".data s then "M6000"
  else if containsSub "l40".data s then "L40"
  else if containsSub "t4".data s then "T4"
  else if containsSub "l4".data s then "L4"
  else if containsSub "rtx 6000".data s then "RTX6000"
  else "Other"

/-- The per-entry step of the `for device in blockdevices` loop of
`_discover_storage_info`, acting on the accumulator
(total_storage, fast_storage, appended storage records). -/
def storage_step (acc : Rat × Rat × List StorageDeviceRec) (device : BlockDevice) :
    Rat × Rat × List StorageDeviceRec :=
  let size_gb := parse_size_to_gb device.size
  let total := acc.1 + size_gb
  if device.type = "disk" then
    if "nvme".data.isPrefixOf device.name.data then
      (total, acc.2.1 + size_gb,
        acc.2.2 ++ [⟨device.name, size_gb, "nvme", device.mountpoint, device.rota = "1"⟩])
    else if device.rota = "0" then
      (total, acc.2.1 + size_gb,
        acc.2.2 ++ [⟨device.name, size_gb, "ssd", device.mountpoint, device.rota = "1"⟩])
    else
      (total, acc.2.1,
        acc.2.2 ++ [⟨device.name, size_gb, device.type, device.mountpoint, device.rota = "1"⟩])
  else
    (total, acc.2.1, acc.2.2)

/-- The whole `for device in blockdevices` loop of
`_discover_storage_info`, started from zero accumulators. -/
def storage_fold (devices : List BlockDevice) : Rat × Rat × List StorageDeviceRec :=
  devices.foldl storage_step (0, 0, [])

/-- `PreflightChecker._discover_storage_info`, at the boundary of the
already-parsed `lsblk` JSON: `none` models a failed or empty listing
(the facet keeps its defaults). -/
def discover_storage_info (node : NodeCapabilities)
    (blockdevices : Option (List BlockDevice)) : NodeCapabilities :=
  match blockdevices with
  | none => node
  | some devices =>
      let r := storage_fold devices
      { node with
          storage_devices := node.storage_devices ++ r.2.2
          total_storage_gb := r.1
          fast_storage_gb := r.2.1 }

/-- `PreflightChecker._discover_gpu_info`, at the boundary of the parsed
`nvidia-smi` CSV rows (name, memory.total in GB, index); `none` models
an absent tool or a failed command (zero GPUs). -/
def discover_gpu_info (node : NodeCapabilities)
    (gpu_rows : Option (List (String × Rat × Int))) : NodeCapabilities :=
  match gpu_rows with
  | none => node
  | some rows =>
      if rows.isEmpty then node
      else
        { node with
            gpu_devices := node.gpu_devices ++
              rows.map (fun r => ⟨r.2.2, r.1, r.2.1, classify_gpu r.1⟩)
            total_gpu_memory_gb := (rows.map (fun r => r.2.1)).sum
            gpu_count := rows.length }

/-- The per-interface step of `_discover_network_info`: skip loopback,
append the record, and designate the first interface carrying an
address as primary. -/
def network_step (node : NodeCapabilities) (iface : NetworkInterfaceRec) :
    NodeCapabilities :=
  if iface.name ≠ "" ∧ iface.name ≠ "lo" then
    let node := { node with network_interfaces := node.network_interfaces ++ [iface] }
    if node.primary_interface = "" ∧ iface.ip_addresses ≠ [] then
      { node with
          primary_interface := iface.name
          network_speed_gbps := iface.speed_gbps }
    else node
  else node

/-- `PreflightChecker._discover_network_info`, at the boundary of the
parsed `ip -json addr show` output with per-interface speeds already
read. -/
def discover_network_info (node : NodeCapabilities)
    (interfaces : Option (List NetworkInterfaceRec)) : NodeCapabilities :=
  match interfaces with
  | none => node
  | some ifaces => ifaces.foldl network_step node

/-- Oracle for one host's remote side: what each probe's commands would
yield, each `none` modelling that probe's command failing or producing
unusable output (the probe's own `except` keeps the facet defaults).
`ssh_ok = false` models `_test_ssh_connection` failing, which aborts the
whole host's discovery. -/
structure RemoteHost where
  ssh_ok : Bool := false
  nproc : Option Nat := none
  cpu_model : Option String := none
  cpu_mhz : Option Rat := none
  mem_total_gb : Option Rat := none
  mem_available_gb : Option Rat := none
  blockdevices : Option (List BlockDevice) := none
  gpu_rows : Option (List (String × Rat × Int)) := none
  interfaces : Option (List NetworkInterfaceRec) := none
  os_name : Option String := none
  os_version : Option String := none
  kernel : Option String := none
  docker : Option Bool := none
  containerd : Option Bool := none
  kubectl : Option Bool := none

/-- `PreflightChecker._generate_recommendations`: the additive priority
score.  Each helper below is one `if/elif` tier block of the Python
function, summed in source order. -/
def cpu_score (cores : Nat) : Int :=
  if cores ≥ 16 then 10 else if cores ≥ 8 then 5 else if cores ≥ 4 then 2 else 0

/-- Memory tier block of `_generate_recommendations`. -/
def memory_score (total_memory_gb : Rat) : Int :=
  if total_memory_gb ≥ 64 then 10 else if total_memory_gb ≥ 32 then 5
  else if total_memory_gb ≥ 16 then 2 else 0

/-- Fast-storage tier block of `_generate_recommendations`. -/
def storage_score (fast_storage_gb : Rat) : Int :=
  if fast_storage_gb ≥ 500 then 10 else if fast_storage_gb ≥ 100 then 5
  else if fast_storage_gb ≥ 50 then 2 else 0

/-- Network tier block of `_generate_recommendations`. -/
def network_score (network_speed_gbps : Rat) : Int :=
  if network_speed_gbps ≥ 25 then 10 else if network_speed_gbps ≥ 10 then 5
  else if network_speed_gbps ≥ 1 then 2 else 0

/-- GPU tier block of `_generate_recommendations` (+20 for presence plus
a memory tier bonus). -/
def gpu_score (gpu_count : Nat) (total_gpu_memory_gb : Rat) : Int :=
  if gpu_count > 0 then
    20 + (if total_gpu_memory_gb ≥ 80 then 15
      else if total_gpu_memory_gb ≥ 48 then 12
      else if total_gpu_memory_gb ≥ 40 then 10
      else if total_gpu_memory_gb ≥ 24 then 8
      else if total_gpu_memory_gb ≥ 16 then 5
      else if total_gpu_memory_gb ≥ 8 then 3
      else 0)
  else 0

/-- The full `priority_score` accumulated by `_generate_recommendations`. -/
def priority_score (node : NodeCapabilities) : Int :=
  cpu_score node.cpu_cores + memory_score node.total_memory_gb
    + storage_score node.fast_storage_gb + network_score node.network_speed_gbps
    + gpu_score node.gpu_count node.total_gpu_memory_gb

/-- `PreflightChecker._generate_recommendations`: role derivation and
score assignment. -/
def generate_recommendations (node : NodeCapabilities) : NodeCapabilities :=
  let score := priority_score node
  { node with
      recommended_role :=
        if node.gpu_count > 0 then "gpu_worker"
        else if score ≥ 15 then "master"
        else "worker"
      recommended_priority := score }

/-- `PreflightChecker._discover_node_capabilities` for one host: the SSH
connection test failing raises (modelled as `none`); otherwise the probes
run in sequence, each keeping its facet's defaults on its own failure,
and `_generate_recommendations` is applied last. -/
def discover_node_capabilities (node : NodeCapabilities) (remote : RemoteHost) :
    Option NodeCapabilities :=
  if !remote.ssh_ok then none
  else
    let node := { node with
      cpu_cores := remote.nproc.getD node.cpu_cores
      cpu_model := remote.cpu_model.getD node.cpu_model
      cpu_frequency := (remote.cpu_mhz.map (· / 1000)).getD node.cpu_frequency }
    let node := { node with
      total_memory_gb := remote.mem_total_gb.getD node.total_memory_gb
      available_memory_gb := remote.mem_available_gb.getD node.available_memory_gb }
    let node := discover_storage_info node remote.blockdevices
    let node := discover_gpu_info node remote.gpu_rows
    let node := discover_network_info node remote.interfaces
    let node := { node with
      os_name := remote.os_name.getD node.os_name
      os_version := remote.os_version.getD node.os_version
      kernel_version := remote.kernel.getD node.kernel_version }
    let node := { node with
      docker_installed := remote.docker.getD node.docker_installed
      containerd_installed := remote.containerd.getD node.containerd_installed
      kubernetes_installed := remote.kubectl.getD node.kubernetes_installed }
    some (generate_recommendations node)

/-- The `NodeCapabilities(...)` constructed for each input row at the top
of `discover_nodes`: identity fields set, everything else at dataclass
defaults. -/
def initial_node (ssh_key_path : String) (info : NodeInfo) : NodeCapabilities :=
  { hostname := info.hostname
    ip_address := info.ip_address
    username := info.username
    ssh_key_path := ssh_key_path }

/-- `PreflightChecker.discover_nodes`: build one fresh node per input
row, then run per-host discovery through the worker pool, catching each
host's exception at the task boundary (a failed host keeps its fresh
node).  `ThreadPoolExecutor(max_workers=min(len(nodes), 10))` raises
`ValueError` when that bound is 0, i.e. exactly on an empty node list. -/
def discover_nodes (ssh_key_path : String) (node_list : List NodeInfo)
    (remote : NodeInfo → RemoteHost) : Except String (List NodeCapabilities) :=
  let nodes := node_list.map (initial_node ssh_key_path)
  if min nodes.length 10 = 0 then
    .error "ValueError: max_workers must be greater than 0"
  else
    .ok (node_list.map (fun info =>
      let node := initial_node ssh_key_path info
      (discover_node_capabilities node (remote info)).getD node))

/-- The comparator behind `sorted(self.nodes, key=lambda x:
x.recommended_priority, reverse=True)`. -/
def priorityDesc (a b : NodeCapabilities) : Bool :=
  b.recommended_priority ≤ a.recommended_priority

/-- Python's `sorted` is a stable sort; `List.mergeSort` is the stable
sort of the Lean library. -/
def sortByPriorityDesc (nodes : List NodeCapabilities) : List NodeCapabilities :=
  nodes.mergeSort priorityDesc

/-- The summary block of the deployment plan dictionary. -/
structure DeploymentSummary where
  total_nodes : Nat
  master_nodes : Nat
  gpu_worker_nodes : Nat
  worker_nodes : Nat
  total_gpus : Nat
  total_gpu_memory_gb : Rat
  total_cpu_cores : Nat
  total_memory_gb : Rat
  total_storage_gb : Rat
deriving DecidableEq, Repr

/-- The deployment plan dictionary built by `build_deployment_plan`.
Each plan entry stores the hostname, IP and the full capability record;
here the `NodeCapabilities` value carries all of those.  The wall-clock
`timestamp` field is real time and is not modelled. -/
structure DeploymentPlan where
  master_node : NodeCapabilities
  gpu_worker_nodes : List NodeCapabilities
  worker_nodes : List NodeCapabilities
  summary : DeploymentSummary
  recommendations : List String
deriving DecidableEq, Repr

/-- `PreflightChecker._generate_recommendations_summary`, a function of
the node list held by the checker. -/
def generate_recommendations_summary (nodes : List NodeCapabilities) : List String :=
  let total_gpus := (nodes.map (·.gpu_count)).sum
  let total_memory := (nodes.map (·.total_memory_gb)).sum
  let total_storage := (nodes.map (·.total_storage_gb)).sum
  let fast_storage := (nodes.map (·.fast_storage_gb)).sum
  (if total_gpus = 0 then
      ["⚠️  No GPUs detected. RAG performance will be limited to CPU-only operations."]
    else if total_gpus < 2 then
      ["⚠️  Limited GPU resources. Consider adding more GPU nodes for production workloads."]
    else
      ["✅ Sufficient GPU resources detected for production RAG workloads."])
  ++ (if total_memory < 64 then
      ["⚠️  Limited memory resources. Consider adding more RAM for optimal performance."]
    else ["✅ Sufficient memory resources detected."])
  ++ (if total_storage < 500 then
      ["⚠️  Limited storage resources. Consider adding more storage for large datasets."]
    else ["✅ Sufficient storage resources detected."])
  ++ (if fast_storage < 100 then
      ["⚠️  Limited fast storage (NVMe/SSD). Consider adding NVMe storage for better performance."]
    else ["✅ Sufficient fast storage detected."])

/-- The summary block: simple sums and counts over the checker's full
node list plus the partition sizes (`master_nodes` is the literal 1). -/
def summaryOf (nodes gpu_workers regular_workers : List NodeCapabilities) :
    DeploymentSummary :=
  { total_nodes := nodes.length
    master_nodes := 1
    gpu_worker_nodes := gpu_workers.length
    worker_nodes := regular_workers.length
    total_gpus := (nodes.map (·.gpu_count)).sum
    total_gpu_memory_gb := (nodes.map (·.total_gpu_memory_gb)).sum
    total_cpu_cores := (nodes.map (·.cpu_cores)).sum
    total_memory_gb := (nodes.map (·.total_memory_gb)).sum
    total_storage_gb := (nodes.map (·.total_storage_gb)).sum }

/-- The tail of `build_deployment_plan` once the master node is known:
filter the GPU workers and the regular workers out of the sorted list
(the regular-worker filter carries the `node != master_node` dataclass
value comparison of the source) and assemble the plan dictionary. -/
def mkPlan (master : NodeCapabilities) (sorted_nodes nodes : List NodeCapabilities) :
    DeploymentPlan :=
  let gpu_workers := sorted_nodes.filter (fun n => n.recommended_role == "gpu_worker")
  let regular_workers := sorted_nodes.filter
    (fun n => n.recommended_role == "worker" && n != master)
  { master_node := master
    gpu_worker_nodes := gpu_workers
    worker_nodes := regular_workers
    summary := summaryOf nodes gpu_workers regular_workers
    recommendations := generate_recommendations_summary nodes }

/-- Replace the first occurrence of `a` in `l` by `b`: the value-level
rendering of mutating one aliased object held by several lists. -/
def replaceFirst {α : Type} [DecidableEq α] (l : List α) (a b : α) : List α :=
  match l with
  | [] => []
  | x :: xs => if x = a then b :: xs else x :: replaceFirst xs a b

/-- `PreflightChecker.build_deployment_plan`, threading the checker's
node-list state: the result pairs the plan with the node list after the
call (the fallback branch mutates the selected node's role in place, an
update visible both through `sorted_nodes` and through `self.nodes`).
On an empty node list the fallback's `sorted_nodes[0]` raises
`IndexError`. -/
def build_deployment_plan (nodes : List NodeCapabilities) :
    Except String (DeploymentPlan × List NodeCapabilities) :=
  let sorted_nodes := sortByPriorityDesc nodes
  match sorted_nodes.find? (fun n => n.recommended_role == "master") with
  | some master_node => .ok (mkPlan master_node sorted_nodes nodes, nodes)
  | none =>
      match sorted_nodes with
      | [] => .error "IndexError: list index out of range"
      | top :: rest =>
          let master_node := { top with recommended_role := "master" }
          let nodes' := replaceFirst nodes top master_node
          .ok (mkPlan master_node (master_node :: rest) nodes', nodes')

/-! Concrete fixtures used to instantiate the theorems below. -/

/-- A sample input row. -/
def infoA : NodeInfo := ⟨"node-a", "10.0.0.1", "ubuntu"⟩

/-- A second sample input row. -/
def infoB : NodeInfo := ⟨"node-b", "10.0.0.2", "ubuntu"⟩

/-- A host whose SSH connection test fails. -/
def remoteDown : RemoteHost := { ssh_ok := false }

/-- A reachable host with 16 cores and 64 GB of memory (scores 20, a
master candidate). -/
def remoteBig : RemoteHost :=
  { ssh_ok := true
    nproc := some 16
    mem_total_gb := some 64
    mem_available_gb := some 32 }

/-- The remote side used in discovery fixtures: `infoA` is down, every
other host is `remoteBig`. -/
def sampleRemote : NodeInfo → RemoteHost :=
  fun i => if i = infoA then remoteDown else remoteBig

/-- A freshly constructed node for `infoA` (all facets at defaults). -/
def sampleWorker : NodeCapabilities := initial_node "/root/.ssh/id_rsa" infoA

/-- A scored master-role node on `infoA`. -/
def sampleMasterA : NodeCapabilities :=
  { initial_node "/root/.ssh/id_rsa" infoA with
      recommended_role := "master", recommended_priority := 20 }

/-- A second scored master-role node, on `infoB`. -/
def sampleMasterB : NodeCapabilities :=
  { initial_node "/root/.ssh/id_rsa" infoB with
      recommended_role := "master", recommended_priority := 18 }

/-- A scored GPU node on `infoB`. -/
def sampleGpuNode : NodeCapabilities :=
  { initial_node "/root/.ssh/id_rsa" infoB with
      gpu_count := 2, total_gpu_memory_gb := 96
      recommended_role := "gpu_worker", recommended_priority := 55 }

/-- An `lsblk` row for a partition (device type `part`, non-rotational). -/
def samplePartDevice : BlockDevice :=
  { name := "sda1", size := "10G", type := "part", rota := "0" }

/-! Helper lemmas about the scoring tiers. -/

/-- The CPU tier table is monotone. -/
theorem cpu_score_mono {c c' : Nat} (h : c ≤ c') : cpu_score c ≤ cpu_score c' := by
  unfold cpu_score
  split_ifs <;> omega

/-- The memory tier table is monotone. -/
theorem memory_score_mono {m m' : Rat} (h : m ≤ m') :
    memory_score m ≤ memory_score m' := by
  unfold memory_score
  split_ifs <;> try norm_num
  all_goals exfalso
  all_goals linarith

/-- The fast-storage tier table is monotone. -/
theorem storage_score_mono {s s' : Rat} (h : s ≤ s') :
    storage_score s ≤ storage_score s' := by
  unfold storage_score
  split_ifs <;> try norm_num
  all_goals exfalso
  all_goals linarith

/-- The network tier table is monotone. -/
theorem network_score_mono {v v' : Rat} (h : v ≤ v') :
    network_score v ≤ network_score v' := by
  unfold network_score
  split_ifs <;> try norm_num
  all_goals exfalso
  all_goals linarith

/-- The GPU tier table is monotone in GPU memory once a GPU is present. -/
theorem gpu_score_mono {count : Nat} (hc : 0 < count) {g g' : Rat} (h : g ≤ g') :
    gpu_score count g ≤ gpu_score count g' := by
  unfold gpu_score
  rw [if_pos hc, if_pos hc]
  refine Int.add_le_add_left ?_ 20
  split_ifs <;> try norm_num
  all_goals exfalso
  all_goals linarith

/-- The storage loop's accumulators, characterized for an arbitrary
starting state: the running total takes every entry, while the fast
total takes exactly the `disk`-typed entries that are NVMe-named or
non-rotational. -/
theorem storage_fold_acc (devices : List BlockDevice) :
    ∀ (t f : Rat) (recs : List StorageDeviceRec),
      (devices.foldl storage_step (t, f, recs)).1
          = t + (devices.map (fun d => parse_size_to_gb d.size)).sum ∧
        (devices.foldl storage_step (t, f, recs)).2.1
          = f + ((devices.filter (fun d =>
              d.type == "disk" && ("nvme".data.isPrefixOf d.name.data || d.rota == "0"))).map
              (fun d => parse_size_to_gb d.size)).sum := by
  induction devices with
  | nil => intro t f recs; simp
  | cons d ds ih =>
      intro t f recs
      have hfc : ∀ l : List BlockDevice, (d :: l).filter (fun d =>
          d.type == "disk" && ("nvme".data.isPrefixOf d.name.data || d.rota == "0"))
          = if (d.type == "disk" && ("nvme".data.isPrefixOf d.name.data || d.rota == "0")) then
              d :: l.filter (fun d =>
                d.type == "disk" && ("nvme".data.isPrefixOf d.name.data || d.rota == "0"))
            else l.filter (fun d =>
              d.type == "disk" && ("nvme".data.isPrefixOf d.name.data || d.rota == "0")) :=
        fun l => List.filter_cons
      by_cases hdisk : d.type = "disk"
      · by_cases hnvme : "nvme".data.isPrefixOf d.name.data
        · rw [List.foldl_cons, List.map_cons, List.sum_cons, hfc]
          have hcond : (d.type == "disk"
              && ("nvme".data.isPrefixOf d.name.data || d.rota == "0")) = true := by
            simp [hdisk, hnvme]
          rw [if_pos hcond, List.map_cons, List.sum_cons]
          have hstep : storage_step (t, f, recs) d
              = (t + parse_size_to_gb d.size, f + parse_size_to_gb d.size,
                  recs ++ [⟨d.name, parse_size_to_gb d.size, "nvme", d.mountpoint,
                    d.rota = "1"⟩]) := by
            simp [storage_step, hdisk, hnvme]
          rw [hstep]
          refine ⟨?_, ?_⟩
          · rw [(ih _ _ _).1]; ring
          · rw [(ih _ _ _).2]; ring
        · by_cases hrota : d.rota = "0"
          · rw [List.foldl_cons, List.map_cons, List.sum_cons, hfc]
            have hcond : (d.type == "disk"
                && ("nvme".data.isPrefixOf d.name.data || d.rota == "0")) = true := by
              simp [hdisk, hrota]
            rw [if_pos hcond, List.map_cons, List.sum_cons]
            have hstep : storage_step (t, f, recs) d
                = (t + parse_size_to_gb d.size, f + parse_size_to_gb d.size,
                    recs ++ [⟨d.name, parse_size_to_gb d.size, "ssd", d.mountpoint,
                      d.rota = "1"⟩]) := by
              simp [storage_step, hdisk, hnvme, hrota]
            rw [hstep]
            refine ⟨?_, ?_⟩
            · rw [(ih _ _ _).1]; ring
            · rw [(ih _ _ _).2]; ring
          · rw [List.foldl_cons, List.map_cons, List.sum_cons, hfc]
            have hcond : (d.type == "disk"
                && ("nvme".data.isPrefixOf d.name.data || d.rota == "0")) = false := by
              simp [hdisk, hnvme, hrota]
            rw [if_neg (by simp [hcond])]
            have hstep : storage_step (t, f, recs) d
                = (t + parse_size_to_gb d.size, f,
                    recs ++ [⟨d.name, parse_size_to_gb d.size, d.type, d.mountpoint,
                      d.rota = "1"⟩]) := by
              simp [storage_step, hdisk, hnvme, hrota]
            rw [hstep]
            refine ⟨?_, ?_⟩
            · rw [(ih _ _ _).1]; ring
            · rw [(ih _ _ _).2]
      · rw [List.foldl_cons, List.map_cons, List.sum_cons, hfc]
        have hcond : (d.type == "disk"
            && ("nvme".data.isPrefixOf d.name.data || d.rota == "0")) = false := by
          simp [hdisk]
        rw [if_neg (by simp [hcond])]
        have hstep : storage_step (t, f, recs) d
            = (t + parse_size_to_gb d.size, f, recs) := by
          simp [storage_step, hdisk]
        rw [hstep]
        refine ⟨?_, ?_⟩
        · rw [(ih _ _ _).1]; ring
        · rw [(ih _ _ _).2]

/-- C3 (amended): in the storage probe, `fast_storage_gb` counts exactly
the device-type-`disk` entries that are NVMe-named or non-rotational,
but `total_storage_gb` sums every block-device entry regardless of its
type (partitions included). -/
theorem storage_totals_characterization (devices : List BlockDevice) :
    (storage_fold devices).1
        = (devices.map (fun d => parse_size_to_gb d.size)).sum ∧
      (storage_fold devices).2.1
        = ((devices.filter (fun d =>
            d.type == "disk" && ("nvme".data.isPrefixOf d.name.data || d.rota == "0"))).map
            (fun d => parse_size_to_gb d.size)).sum := by
  have h := storage_fold_acc devices 0 0 []
  simpa [storage_fold] using h

/-- Ten gigabytes parse as 10. -/
theorem parse_ten_g : parse_size_to_gb "10G" = 10 := by decide

/-- Counterexample to C3 as stated: a lone `part`-typed (non-`disk`)
entry of 10G is counted in `total_storage_gb` (which becomes 10, not 0),
though it is excluded from `fast_storage_gb`. -/
theorem partition_counted_in_total_storage :
    (discover_storage_info sampleWorker (some [samplePartDevice])).total_storage_gb = 10 ∧
      (discover_storage_info sampleWorker (some [samplePartDevice])).fast_storage_gb = 0 ∧
      (10 : Rat) ≠ 0 := by
  refine ⟨?_, ?_, by norm_num⟩ <;>
    simp [discover_storage_info, storage_fold, storage_step, samplePartDevice, parse_ten_g]

/-- C5: for every `NodeCapabilities` record processed by
`_generate_recommendations`, a positive `gpu_count` forces the
recommended role `gpu_worker`, whatever the priority score is. -/
theorem gpu_count_forces_gpu_worker (node : NodeCapabilities)
    (h : 0 < node.gpu_count) :
    (generate_recommendations node).recommended_role = "gpu_worker" := by
  simp [generate_recommendations, h]

/-- Witness for C5 at a concrete GPU-bearing node. -/
theorem gpu_count_forces_gpu_worker_witness :
    0 < sampleGpuNode.gpu_count ∧
      (generate_recommendations sampleGpuNode).recommended_role = "gpu_worker" :=
  ⟨by decide, gpu_count_forces_gpu_worker sampleGpuNode (by decide)⟩

/-- C6: the priority score of `_generate_recommendations` is monotone in
each facet separately: raising cores, memory, fast storage, network
speed, or (with a GPU present) GPU memory never lowers the score. -/
theorem priority_score_monotone_per_axis (n : NodeCapabilities) :
    (∀ c c' : Nat, c ≤ c' →
        priority_score { n with cpu_cores := c }
          ≤ priority_score { n with cpu_cores := c' }) ∧
      (∀ m m' : Rat, m ≤ m' →
        priority_score { n with total_memory_gb := m }
          ≤ priority_score { n with total_memory_gb := m' }) ∧
      (∀ s s' : Rat, s ≤ s' →
        priority_score { n with fast_storage_gb := s }
          ≤ priority_score { n with fast_storage_gb := s' }) ∧
      (∀ v v' : Rat, v ≤ v' →
        priority_score { n with network_speed_gbps := v }
          ≤ priority_score { n with network_speed_gbps := v' }) ∧
      (0 < n.gpu_count → ∀ g g' : Rat, g ≤ g' →
        priority_score { n with total_gpu_memory_gb := g }
          ≤ priority_score { n with total_gpu_memory_gb := g' }) := by
  refine ⟨?_, ?_, ?_, ?_, ?_⟩
  · intro c c' h
    dsimp only [priority_score]
    have := cpu_score_mono h
    omega
  · intro m m' h
    dsimp only [priority_score]
    have := memory_score_mono h
    omega
  · intro s s' h
    dsimp only [priority_score]
    have := storage_score_mono h
    omega
  · intro v v' h
    dsimp only [priority_score]
    have := network_score_mono h
    omega
  · intro hc g g' h
    dsimp only [priority_score]
    have := gpu_score_mono hc h
    omega

/-- Witness for C6, instantiating every axis at concrete values. -/
theorem priority_score_monotone_per_axis_witness :
    (4 : Nat) ≤ 16 ∧ (16 : Rat) ≤ 64 ∧ (50 : Rat) ≤ 500 ∧ (1 : Rat) ≤ 25 ∧
      0 < sampleGpuNode.gpu_count ∧ (8 : Rat) ≤ 80 ∧
      priority_score { sampleGpuNode with cpu_cores := 4 }
        ≤ priority_score { sampleGpuNode with cpu_cores := 16 } ∧
      priority_score { sampleGpuNode with total_memory_gb := 16 }
        ≤ priority_score { sampleGpuNode with total_memory_gb := 64 } ∧
      priority_score { sampleGpuNode with fast_storage_gb := 50 }
        ≤ priority_score { sampleGpuNode with fast_storage_gb := 500 } ∧
      priority_score { sampleGpuNode with network_speed_gbps := 1 }
        ≤ priority_score { sampleGpuNode with network_speed_gbps := 25 } ∧
      priority_score { sampleGpuNode with total_gpu_memory_gb := 8 }
        ≤ priority_score { sampleGpuNode with total_gpu_memory_gb := 80 } :=
  ⟨by norm_num, by norm_num, by norm_num, by norm_num, by decide, by norm_num,
    (priority_score_monotone_per_axis sampleGpuNode).1 4 16 (by norm_num),
    (priority_score_monotone_per_axis sampleGpuNode).2.1 16 64 (by norm_num),
    (priority_score_monotone_per_axis sampleGpuNode).2.2.1 50 500 (by norm_num),
    (priority_score_monotone_per_axis sampleGpuNode).2.2.2.1 1 25 (by norm_num),
    (priority_score_monotone_per_axis sampleGpuNode).2.2.2.2 (by decide) 8 80
      (by norm_num)⟩

/-- The sort comparator is transitive. -/
theorem priorityDesc_trans : ∀ a b c : NodeCapabilities,
    priorityDesc a b → priorityDesc b c → priorityDesc a c := by
  intro a b c hab hbc
  simp only [priorityDesc, decide_eq_true_eq] at *
  omega

/-- The sort comparator is total. -/
theorem priorityDesc_total : ∀ a b : NodeCapabilities,
    priorityDesc a b || priorityDesc b a := by
  intro a b
  simp only [priorityDesc, Bool.or_eq_true, decide_eq_true_eq]
  omega

/-- The planner's sort is a permutation of its input. -/
theorem sortByPriorityDesc_perm (nodes : List NodeCapabilities) :
    (sortByPriorityDesc nodes).Perm nodes :=
  List.mergeSort_perm nodes priorityDesc

/-- The planner's sort yields scores in descending order. -/
theorem sortByPriorityDesc_sorted (nodes : List NodeCapabilities) :
    (sortByPriorityDesc nodes).Pairwise
      (fun a b => b.recommended_priority ≤ a.recommended_priority) := by
  have h := List.sorted_mergeSort
    (fun a b c => priorityDesc_trans a b c) (fun a b => priorityDesc_total a b) nodes
  exact h.imp (fun hab => by
    simpa only [priorityDesc, decide_eq_true_eq] using hab)

/-- The plan's master slot holds the selected master. -/
theorem mkPlan_master_node (m : NodeCapabilities) (s ns : List NodeCapabilities) :
    (mkPlan m s ns).master_node = m := rfl

/-- The plan's GPU-worker slot is the `gpu_worker` filter of the sorted
list. -/
theorem mkPlan_gpu_worker_nodes (m : NodeCapabilities) (s ns : List NodeCapabilities) :
    (mkPlan m s ns).gpu_worker_nodes
      = s.filter (fun n => n.recommended_role == "gpu_worker") := rfl

/-- The plan's worker slot is the `worker`-and-not-master filter of the
sorted list. -/
theorem mkPlan_worker_nodes (m : NodeCapabilities) (s ns : List NodeCapabilities) :
    (mkPlan m s ns).worker_nodes
      = s.filter (fun n => n.recommended_role == "worker" && n != m) := rfl

/-- C7: when no node carries the `master` role, the planner re-flags the
single highest-scoring node as the control-plane node and keeps it out
of the GPU-worker set even if it carries GPUs. -/
theorem fallback_master_highest_score (nodes : List NodeCapabilities)
    (hne : nodes ≠ [])
    (hnm : ∀ n ∈ nodes, n.recommended_role ≠ "master") :
    ∃ plan nodes₂, build_deployment_plan nodes = .ok (plan, nodes₂) ∧
      (∃ t ∈ nodes, plan.master_node = { t with recommended_role := "master" } ∧
        ∀ n ∈ nodes, n.recommended_priority ≤ t.recommended_priority) ∧
      plan.master_node.recommended_role = "master" ∧
      plan.master_node ∉ plan.gpu_worker_nodes := by
  have hperm := sortByPriorityDesc_perm nodes
  have hfind : (sortByPriorityDesc nodes).find?
      (fun n => n.recommended_role == "master") = none := by
    rw [List.find?_eq_none]
    intro x hx
    simp only [beq_iff_eq]
    exact hnm x (hperm.mem_iff.mp hx)
  cases hs : sortByPriorityDesc nodes with
  | nil =>
      have h0 : ([] : List NodeCapabilities).Perm nodes := hs ▸ hperm
      exact absurd h0.symm.eq_nil hne
  | cons top rest =>
      rw [hs] at hfind
      refine ⟨mkPlan { top with recommended_role := "master" }
        ({ top with recommended_role := "master" } :: rest)
        (replaceFirst nodes top { top with recommended_role := "master" }),
        replaceFirst nodes top { top with recommended_role := "master" }, ?_, ?_, ?_, ?_⟩
      · simp only [build_deployment_plan, hs, hfind]
      · refine ⟨top, hperm.mem_iff.mp (hs ▸ List.mem_cons_self top rest), by
          rw [mkPlan_master_node], ?_⟩
        intro n hn
        have hn' : n ∈ sortByPriorityDesc nodes := hperm.mem_iff.mpr hn
        rw [hs] at hn'
        rcases List.mem_cons.mp hn' with h | h
        · subst h; omega
        · have hsor := sortByPriorityDesc_sorted nodes
          rw [hs] at hsor
          exact (List.pairwise_cons.mp hsor).1 n h
      · rw [mkPlan_master_node]
      · intro hmem
        rw [mkPlan_gpu_worker_nodes] at hmem
        have h2 := (List.mem_filter.mp hmem).2
        rw [mkPlan_master_node] at h2
        simp at h2

/-- Witness for C7 on a GPU node plus a plain worker, neither of role
`master`. -/
theorem fallback_master_highest_score_witness :
    ([sampleGpuNode, sampleWorker] : List NodeCapabilities) ≠ [] ∧
      (∀ n ∈ ([sampleGpuNode, sampleWorker] : List NodeCapabilities),
        n.recommended_role ≠ "master") ∧
      (∃ plan nodes₂,
        build_deployment_plan [sampleGpuNode, sampleWorker] = .ok (plan, nodes₂) ∧
        (∃ t ∈ ([sampleGpuNode, sampleWorker] : List NodeCapabilities),
          plan.master_node = { t with recommended_role := "master" } ∧
          ∀ n ∈ ([sampleGpuNode, sampleWorker] : List NodeCapabilities),
            n.recommended_priority ≤ t.recommended_priority) ∧
        plan.master_node.recommended_role = "master" ∧
        plan.master_node ∉ plan.gpu_worker_nodes) :=
  ⟨by decide, by decide,
    fallback_master_highest_score [sampleGpuNode, sampleWorker] (by decide) (by decide)⟩

/-- A probed interface keeps the node's hostname. -/
theorem network_step_hostname (node : NodeCapabilities) (i : NetworkInterfaceRec) :
    (network_step node i).hostname = node.hostname := by
  simp only [network_step]
  split_ifs <;> rfl

/-- The network probe keeps the node's hostname. -/
theorem discover_network_info_hostname (node : NodeCapabilities)
    (ifaces : Option (List NetworkInterfaceRec)) :
    (discover_network_info node ifaces).hostname = node.hostname := by
  cases ifaces with
  | none => rfl
  | some l =>
      show (l.foldl network_step node).hostname = node.hostname
      induction l generalizing node with
      | nil => rfl
      | cons i is ih => rw [List.foldl_cons, ih, network_step_hostname]

/-- The storage probe keeps the node's hostname. -/
theorem discover_storage_info_hostname (node : NodeCapabilities)
    (b : Option (List BlockDevice)) :
    (discover_storage_info node b).hostname = node.hostname := by
  cases b <;> rfl

/-- The GPU probe keeps the node's hostname. -/
theorem discover_gpu_info_hostname (node : NodeCapabilities)
    (g : Option (List (String × Rat × Int))) :
    (discover_gpu_info node g).hostname = node.hostname := by
  cases g with
  | none => rfl
  | some rows =>
      simp only [discover_gpu_info]
      split_ifs <;> rfl

/-- One host's discovery, failed or not, keeps the node's hostname. -/
theorem discovered_hostname (node : NodeCapabilities) (remote : RemoteHost) :
    ((discover_node_capabilities node remote).getD node).hostname = node.hostname := by
  cases hs : remote.ssh_ok with
  | false => simp [discover_node_capabilities, hs]
  | true =>
      simp [discover_node_capabilities, hs, generate_recommendations,
        discover_network_info_hostname, discover_gpu_info_hostname,
        discover_storage_info_hostname]

/-- C8: on a non-empty host list, discovery returns exactly one result
per input host whatever fails, and position `i` of the output belongs to
position `i` of the input. -/
theorem discovery_preserves_count_and_order (key : String)
    (node_list : List NodeInfo) (remote : NodeInfo → RemoteHost)
    (hne : node_list ≠ []) :
    ∃ results, discover_nodes key node_list remote = .ok results ∧
      results.length = node_list.length ∧
      ∀ i : Nat, results[i]?.map NodeCapabilities.hostname
        = node_list[i]?.map NodeInfo.hostname := by
  refine ⟨node_list.map (fun info =>
    (discover_node_capabilities (initial_node key info) (remote info)).getD
      (initial_node key info)), ?_, by simp, ?_⟩
  · unfold discover_nodes
    rw [if_neg]
    simp only [List.length_map, Nat.min_eq_zero_iff]
    push_neg
    exact ⟨fun h => hne (List.length_eq_zero.mp h), by omega⟩
  · intro i
    rw [List.getElem?_map, Option.map_map]
    cases h : node_list[i]? with
    | none => rfl
    | some info =>
        simp [Function.comp, discovered_hostname, initial_node]

/-- Witness for C8 on a two-host list whose first host is down. -/
theorem discovery_preserves_count_and_order_witness :
    ([infoA, infoB] : List NodeInfo) ≠ [] ∧
      (∃ results,
        discover_nodes "/root/.ssh/id_rsa" [infoA, infoB] sampleRemote = .ok results ∧
        results.length = ([infoA, infoB] : List NodeInfo).length ∧
        ∀ i : Nat, results[i]?.map NodeCapabilities.hostname
          = ([infoA, infoB] : List NodeInfo)[i]?.map NodeInfo.hostname) :=
  ⟨by decide,
    discovery_preserves_count_and_order "/root/.ssh/id_rsa" [infoA, infoB]
      sampleRemote (by decide)⟩

/-- C2 (amended): a host whose SSH connection fails still appears in the
discovery results as its freshly constructed record: role `worker`,
priority 1 (the dataclass default `recommended_priority`), and every
capability facet at its zero default; when some master-role node exists,
planning places it in the worker set of the final plan. -/
theorem failed_host_default_worker_in_plan (key : String) (node_list : List NodeInfo)
    (remote : NodeInfo → RemoteHost) (info : NodeInfo)
    (hmem : info ∈ node_list) (hfail : (remote info).ssh_ok = false) :
    ∃ results, discover_nodes key node_list remote = .ok results ∧
      initial_node key info ∈ results ∧
      (initial_node key info).recommended_role = "worker" ∧
      (initial_node key info).recommended_priority = 1 ∧
      (initial_node key info).cpu_cores = 0 ∧
      (initial_node key info).total_memory_gb = 0 ∧
      (initial_node key info).total_storage_gb = 0 ∧
      (initial_node key info).fast_storage_gb = 0 ∧
      (initial_node key info).gpu_count = 0 ∧
      (initial_node key info).total_gpu_memory_gb = 0 ∧
      (initial_node key info).network_speed_gbps = 0 ∧
      ∀ plan nodes₂, build_deployment_plan results = .ok (plan, nodes₂) →
        (∃ m ∈ results, m.recommended_role = "master") →
        initial_node key info ∈ plan.worker_nodes := by
  have hne : node_list ≠ [] := by
    intro h; rw [h] at hmem; exact absurd hmem (List.not_mem_nil info)
  refine ⟨node_list.map (fun i =>
    (discover_node_capabilities (initial_node key i) (remote i)).getD
      (initial_node key i)), ?_, ?_, rfl, rfl, rfl, rfl, rfl, rfl, rfl, rfl, rfl, ?_⟩
  · unfold discover_nodes
    rw [if_neg]
    simp only [List.length_map, Nat.min_eq_zero_iff]
    push_neg
    exact ⟨fun h => hne (List.length_eq_zero.mp h), by omega⟩
  · refine List.mem_map.mpr ⟨info, hmem, ?_⟩
    simp [discover_node_capabilities, hfail]
  · intro plan nodes₂ hplan hmaster
    set results := node_list.map (fun i =>
      (discover_node_capabilities (initial_node key i) (remote i)).getD
        (initial_node key i)) with hres
    obtain ⟨m, hmm, hmrole⟩ := hmaster
    have hmem_sorted : m ∈ sortByPriorityDesc results :=
      (sortByPriorityDesc_perm results).mem_iff.mpr hmm
    have hsome : ((sortByPriorityDesc results).find?
        (fun n => n.recommended_role == "master")).isSome :=
      List.find?_isSome.mpr ⟨m, hmem_sorted, by simp [hmrole]⟩
    obtain ⟨m', hfind⟩ := Option.isSome_iff_exists.mp hsome
    have hm'role : m'.recommended_role = "master" := by
      have := List.find?_some hfind
      simpa using this
    rw [build_deployment_plan] at hplan
    simp only [hfind] at hplan
    have hplan_eq : plan = mkPlan m' (sortByPriorityDesc results) results := by
      injection hplan with h
      injection h with h1 h2
      exact h1.symm
    rw [hplan_eq, mkPlan_worker_nodes]
    refine List.mem_filter.mpr ⟨?_, ?_⟩
    · refine (sortByPriorityDesc_perm results).mem_iff.mpr ?_
      refine List.mem_map.mpr ⟨info, hmem, ?_⟩
      simp [discover_node_capabilities, hfail]
    · have hne' : initial_node key info ≠ m' := by
        intro he
        have h2 : (initial_node key info).recommended_role = "master" := he ▸ hm'role
        have h3 : "worker" = "master" := h2
        exact absurd h3 (by decide)
      have hrole : (initial_node key info).recommended_role = "worker" := rfl
      simp [hrole, hne']

/-- Counterexample to C2 as stated: the failed host's record carries the
dataclass default priority 1, not the claimed 0. -/
theorem failed_host_priority_not_zero :
    discover_nodes "/root/.ssh/id_rsa" [infoA] (fun _ => remoteDown)
        = .ok [initial_node "/root/.ssh/id_rsa" infoA] ∧
      (initial_node "/root/.ssh/id_rsa" infoA).recommended_priority = 1 ∧
      (initial_node "/root/.ssh/id_rsa" infoA).recommended_priority ≠ 0 :=
  ⟨rfl, rfl, by decide⟩

/-- Witness for C2: `infoA` is down, `infoB` is a master candidate. -/
theorem failed_host_witness :
    infoA ∈ ([infoA, infoB] : List NodeInfo) ∧
      (sampleRemote infoA).ssh_ok = false ∧
      (∃ results,
        discover_nodes "/root/.ssh/id_rsa" [infoA, infoB] sampleRemote = .ok results ∧
        initial_node "/root/.ssh/id_rsa" infoA ∈ results ∧
        (initial_node "/root/.ssh/id_rsa" infoA).recommended_role = "worker" ∧
        (initial_node "/root/.ssh/id_rsa" infoA).recommended_priority = 1 ∧
        (initial_node "/root/.ssh/id_rsa" infoA).cpu_cores = 0 ∧
        (initial_node "/root/.ssh/id_rsa" infoA).total_memory_gb = 0 ∧
        (initial_node "/root/.ssh/id_rsa" infoA).total_storage_gb = 0 ∧
        (initial_node "/root/.ssh/id_rsa" infoA).fast_storage_gb = 0 ∧
        (initial_node "/root/.ssh/id_rsa" infoA).gpu_count = 0 ∧
        (initial_node "/root/.ssh/id_rsa" infoA).total_gpu_memory_gb = 0 ∧
        (initial_node "/root/.ssh/id_rsa" infoA).network_speed_gbps = 0 ∧
        ∀ plan nodes₂,
          build_deployment_plan results = .ok (plan, nodes₂) →
          (∃ m ∈ results, m.recommended_role = "master") →
          initial_node "/root/.ssh/id_rsa" infoA ∈ plan.worker_nodes) :=
  ⟨by decide, by decide,
    failed_host_default_worker_in_plan "/root/.ssh/id_rsa" [infoA, infoB]
      sampleRemote infoA (by decide) (by decide)⟩

/-- A node list with only canonical roles is a permutation of its three
role buckets in order. -/
theorem role_buckets_perm (l : List NodeCapabilities)
    (h : ∀ n ∈ l, n.recommended_role = "master" ∨ n.recommended_role = "gpu_worker"
      ∨ n.recommended_role = "worker") :
    l.Perm (l.filter (fun n => n.recommended_role == "master")
      ++ (l.filter (fun n => n.recommended_role == "gpu_worker")
        ++ l.filter (fun n => n.recommended_role == "worker"))) := by
  induction l with
  | nil => simp
  | cons x xs ih =>
      have hx := h x (List.mem_cons_self x xs)
      have ihh := ih (fun n hn => h n (List.mem_cons_of_mem x hn))
      rcases hx with hx | hx | hx
      · rw [List.filter_cons_of_pos (by simp [hx]),
          List.filter_cons_of_neg (by simp [hx]),
          List.filter_cons_of_neg (by simp [hx])]
        exact ihh.cons x
      · rw [List.filter_cons_of_neg (by simp [hx]),
          List.filter_cons_of_pos (by simp [hx]),
          List.filter_cons_of_neg (by simp [hx])]
        exact (ihh.cons x).trans List.perm_middle.symm
      · rw [List.filter_cons_of_neg (by simp [hx]),
          List.filter_cons_of_neg (by simp [hx]),
          List.filter_cons_of_pos (by simp [hx])]
        refine (ihh.cons x).trans ?_
        rw [← List.append_assoc, ← List.append_assoc]
        exact List.perm_middle.symm

/-- A list of length at most one containing `a` is `[a]`. -/
theorem eq_singleton_of_mem_of_length_le_one {α : Type} {l : List α} {a : α}
    (hm : a ∈ l) (hl : l.length ≤ 1) : l = [a] := by
  match l, hm with
  | [x], hm =>
      rcases List.mem_singleton.mp hm with rfl
      rfl
  | x :: y :: t, _ => simp at hl

/-- Replacing the first occurrence is, up to permutation, replacing one
erased occurrence. -/
theorem replaceFirst_perm {α : Type} [DecidableEq α] {l : List α} {a : α} (b : α)
    (h : a ∈ l) : (replaceFirst l a b).Perm (b :: l.erase a) := by
  induction l with
  | nil => cases h
  | cons x xs ih =>
      by_cases hx : x = a
      · subst hx
        rw [replaceFirst, if_pos rfl, List.erase_cons_head]
      · rw [replaceFirst, if_neg hx, List.erase_cons_tail (by simp [hx])]
        have ha : a ∈ xs := by
          rcases List.mem_cons.mp h with h1 | h1
          · exact absurd h1.symm hx
          · exact h1
        exact ((ih ha).cons x).trans (List.Perm.swap b x _)



/-- The `node != master_node` conjunct of the regular-worker filter is
vacuous: the master's role is `master`, never `worker`. -/
theorem worker_filter_eq (s : List NodeCapabilities) (m : NodeCapabilities)
    (hm : m.recommended_role = "master") :
    s.filter (fun n => n.recommended_role == "worker" && n != m)
      = s.filter (fun n => n.recommended_role == "worker") := by
  apply List.filter_congr
  intro n hn
  by_cases hw : n.recommended_role = "worker"
  · have hnm : n ≠ m := fun he => by
      rw [he, hm] at hw
      exact absurd hw (by decide)
    simp [hw, hnm]
  · simp [hw]

/-- C1 (amended): for a non-empty node set with canonical roles and at
most one `master`-role node, the plan's control-plane singleton,
GPU-worker set and worker set are pairwise disjoint and their union is
exactly the planner's node set. -/
theorem plan_partition (nodes : List NodeCapabilities)
    (hne : nodes ≠ [])
    (hroles : ∀ n ∈ nodes, n.recommended_role = "master"
      ∨ n.recommended_role = "gpu_worker" ∨ n.recommended_role = "worker")
    (hm : (nodes.filter (fun n => n.recommended_role == "master")).length ≤ 1) :
    ∃ plan nodes₂, build_deployment_plan nodes = .ok (plan, nodes₂) ∧
      (plan.master_node :: (plan.gpu_worker_nodes ++ plan.worker_nodes)).Perm nodes₂ ∧
      plan.master_node.recommended_role = "master" ∧
      (∀ n ∈ plan.gpu_worker_nodes, n.recommended_role = "gpu_worker") ∧
      (∀ n ∈ plan.worker_nodes, n.recommended_role = "worker") ∧
      plan.master_node ∉ plan.gpu_worker_nodes ∧
      plan.master_node ∉ plan.worker_nodes ∧
      (∀ n ∈ plan.gpu_worker_nodes, n ∉ plan.worker_nodes) := by
  have hperm := sortByPriorityDesc_perm nodes
  have hroles_sorted : ∀ n ∈ sortByPriorityDesc nodes, n.recommended_role = "master"
      ∨ n.recommended_role = "gpu_worker" ∨ n.recommended_role = "worker" :=
    fun n hn => hroles n (hperm.mem_iff.mp hn)
  cases hfind : (sortByPriorityDesc nodes).find? (fun n => n.recommended_role == "master") with
  | some m =>
      have hmrole : m.recommended_role = "master" := by
        have := List.find?_some hfind
        simpa using this
      have hmmem : m ∈ sortByPriorityDesc nodes := List.mem_of_find?_eq_some hfind
      have hf1 : (sortByPriorityDesc nodes).filter
          (fun n => n.recommended_role == "master") = [m] := by
        refine eq_singleton_of_mem_of_length_le_one ?_ ?_
        · exact List.mem_filter.mpr ⟨hmmem, by simp [hmrole]⟩
        · have hp := (hperm.filter (fun n => n.recommended_role == "master")).length_eq
          omega
      refine ⟨mkPlan m (sortByPriorityDesc nodes) nodes, nodes, ?_, ?_, ?_, ?_, ?_, ?_, ?_, ?_⟩
      · simp only [build_deployment_plan, hfind]
      · rw [mkPlan_master_node, mkPlan_gpu_worker_nodes, mkPlan_worker_nodes,
          worker_filter_eq _ m hmrole]
        have hb := role_buckets_perm (sortByPriorityDesc nodes) hroles_sorted
        rw [hf1] at hb
        exact (hb.symm.trans hperm)
      · rw [mkPlan_master_node]; exact hmrole
      · intro n hn
        rw [mkPlan_gpu_worker_nodes] at hn
        have := (List.mem_filter.mp hn).2
        simpa using this
      · intro n hn
        rw [mkPlan_worker_nodes] at hn
        have := (List.mem_filter.mp hn).2
        simp only [Bool.and_eq_true, beq_iff_eq] at this
        exact this.1
      · intro hmem
        rw [mkPlan_gpu_worker_nodes] at hmem
        have := (List.mem_filter.mp hmem).2
        simp [mkPlan_master_node, hmrole] at this
      · intro hmem
        rw [mkPlan_worker_nodes] at hmem
        have := (List.mem_filter.mp hmem).2
        simp [mkPlan_master_node, hmrole] at this
      · intro n hn hn2
        rw [mkPlan_gpu_worker_nodes] at hn
        rw [mkPlan_worker_nodes] at hn2
        have h1 := (List.mem_filter.mp hn).2
        have h2 := (List.mem_filter.mp hn2).2
        simp only [Bool.and_eq_true, beq_iff_eq] at h1 h2
        rw [h2.1] at h1
        exact absurd h1 (by decide)
  | none =>
      have hnomaster : ∀ n ∈ sortByPriorityDesc nodes, ¬ n.recommended_role = "master" := by
        have := List.find?_eq_none.mp hfind
        intro n hn
        have h2 := this n hn
        simpa using h2
      cases hs : sortByPriorityDesc nodes with
      | nil =>
          have h0 : ([] : List NodeCapabilities).Perm nodes := hs ▸ hperm
          exact absurd h0.symm.eq_nil hne
      | cons top rest =>
          rw [hs] at hfind hperm hroles_sorted hnomaster
          have htopmem : top ∈ nodes := hperm.mem_iff.mp (List.mem_cons_self top rest)
          have hmrole : ({ top with recommended_role := "master" } :
              NodeCapabilities).recommended_role = "master" := rfl
          have hroles_rest : ∀ n ∈ rest, n.recommended_role = "gpu_worker"
              ∨ n.recommended_role = "worker" := by
            intro n hn
            rcases hroles_sorted n (List.mem_cons_of_mem top hn) with h | h | h
            · exact absurd h (hnomaster n (List.mem_cons_of_mem top hn))
            · exact Or.inl h
            · exact Or.inr h
          have hb := role_buckets_perm rest (fun n hn => Or.inr (hroles_rest n hn))
          have hrest_nomaster : rest.filter (fun n => n.recommended_role == "master") = [] := by
            rw [List.filter_eq_nil_iff]
            intro n hn
            simpa using hnomaster n (List.mem_cons_of_mem top hn)
          rw [hrest_nomaster, List.nil_append] at hb
          have hgpu_cons : (({ top with recommended_role := "master" } : NodeCapabilities)
              :: rest).filter (fun n => n.recommended_role == "gpu_worker")
              = rest.filter (fun n => n.recommended_role == "gpu_worker") := by
            rw [List.filter_cons_of_neg (by simp)]
          have hwork_cons : (({ top with recommended_role := "master" } : NodeCapabilities)
              :: rest).filter (fun n => n.recommended_role == "worker"
                && n != { top with recommended_role := "master" })
              = rest.filter (fun n => n.recommended_role == "worker") := by
            rw [List.filter_cons_of_neg (by simp), worker_filter_eq _ _ hmrole]
          have hnodes2 : (replaceFirst nodes top { top with recommended_role := "master" }).Perm
              ({ top with recommended_role := "master" } :: rest) := by
            refine (replaceFirst_perm _ htopmem).trans ?_
            refine List.Perm.cons _ ?_
            have h2 : nodes.Perm (top :: rest) := hperm.symm
            have h3 := h2.erase top
            rw [List.erase_cons_head] at h3
            exact h3
          refine ⟨mkPlan { top with recommended_role := "master" }
            ({ top with recommended_role := "master" } :: rest)
            (replaceFirst nodes top { top with recommended_role := "master" }),
            replaceFirst nodes top { top with recommended_role := "master" },
            ?_, ?_, ?_, ?_, ?_, ?_, ?_, ?_⟩
          · simp only [build_deployment_plan, hs, hfind]
          · rw [mkPlan_master_node, mkPlan_gpu_worker_nodes, mkPlan_worker_nodes,
              hgpu_cons, hwork_cons]
            refine List.Perm.trans ?_ hnodes2.symm
            exact List.Perm.cons _ hb.symm
          · rw [mkPlan_master_node]
          · intro n hn
            rw [mkPlan_gpu_worker_nodes] at hn
            have := (List.mem_filter.mp hn).2
            simpa using this
          · intro n hn
            rw [mkPlan_worker_nodes] at hn
            have := (List.mem_filter.mp hn).2
            simp only [Bool.and_eq_true, beq_iff_eq] at this
            exact this.1
          · intro hmem
            rw [mkPlan_gpu_worker_nodes] at hmem
            have := (List.mem_filter.mp hmem).2
            simp [mkPlan_master_node] at this
          · intro hmem
            rw [mkPlan_worker_nodes] at hmem
            have := (List.mem_filter.mp hmem).2
            simp [mkPlan_master_node] at this
          · intro n hn hn2
            rw [mkPlan_gpu_worker_nodes] at hn
            rw [mkPlan_worker_nodes] at hn2
            have h1 := (List.mem_filter.mp hn).2
            have h2 := (List.mem_filter.mp hn2).2
            simp only [Bool.and_eq_true, beq_iff_eq] at h1 h2
            rw [h2.1] at h1
            exact absurd h1 (by decide)



unseal List.merge List.mergeSort in
/-- Counterexample to C1 as stated: with two `master`-role nodes the
second is in no partition, so the union (one node) is not a permutation
of the node set (two nodes). -/
theorem plan_drops_second_master :
    ((build_deployment_plan [sampleMasterA, sampleMasterB]).toOption.map
        (fun p => p.1.master_node :: (p.1.gpu_worker_nodes ++ p.1.worker_nodes)))
      = some [sampleMasterA] ∧
      ((build_deployment_plan [sampleMasterA, sampleMasterB]).toOption.map Prod.snd)
        = some [sampleMasterA, sampleMasterB] ∧
      ¬ ([sampleMasterA] : List NodeCapabilities).Perm [sampleMasterA, sampleMasterB] :=
  ⟨by decide, by decide, by decide⟩

/-- Witness for C1 on one master, one GPU worker and one plain worker. -/
theorem plan_partition_witness :
    ([sampleMasterA, sampleGpuNode, sampleWorker] : List NodeCapabilities) ≠ [] ∧
      (∀ n ∈ ([sampleMasterA, sampleGpuNode, sampleWorker] : List NodeCapabilities),
        n.recommended_role = "master" ∨ n.recommended_role = "gpu_worker"
          ∨ n.recommended_role = "worker") ∧
      (([sampleMasterA, sampleGpuNode, sampleWorker] : List NodeCapabilities).filter
        (fun n => n.recommended_role == "master")).length ≤ 1 ∧
      (∃ plan nodes₂,
        build_deployment_plan [sampleMasterA, sampleGpuNode, sampleWorker]
            = .ok (plan, nodes₂) ∧
        (plan.master_node :: (plan.gpu_worker_nodes ++ plan.worker_nodes)).Perm nodes₂ ∧
        plan.master_node.recommended_role = "master" ∧
        (∀ n ∈ plan.gpu_worker_nodes, n.recommended_role = "gpu_worker") ∧
        (∀ n ∈ plan.worker_nodes, n.recommended_role = "worker") ∧
        plan.master_node ∉ plan.gpu_worker_nodes ∧
        plan.master_node ∉ plan.worker_nodes ∧
        (∀ n ∈ plan.gpu_worker_nodes, n ∉ plan.worker_nodes)) :=
  ⟨by decide, by decide, by decide,
    plan_partition [sampleMasterA, sampleGpuNode, sampleWorker]
      (by decide) (by decide) (by decide)⟩



/-- Stability of the planner's sort: the nodes of any fixed score appear
in input order. -/
theorem sort_stable_filter (nodes : List NodeCapabilities) (p : Int) :
    (sortByPriorityDesc nodes).filter (fun n => n.recommended_priority == p)
      = nodes.filter (fun n => n.recommended_priority == p) := by
  have hsub0 : List.Sublist (nodes.filter (fun n => n.recommended_priority == p)) nodes :=
    List.filter_sublist _
  have hpair : (nodes.filter (fun n => n.recommended_priority == p)).Pairwise
      (fun a b => priorityDesc a b = true) := by
    refine List.pairwise_of_forall_mem_list ?_
    intro a ha b hb
    have ha2 := (List.mem_filter.mp ha).2
    have hb2 := (List.mem_filter.mp hb).2
    simp only [beq_iff_eq] at ha2 hb2
    simp [priorityDesc, ha2, hb2]
  have hsub2 : List.Sublist (nodes.filter (fun n => n.recommended_priority == p))
      (sortByPriorityDesc nodes) :=
    List.sublist_mergeSort (fun a b c => priorityDesc_trans a b c)
      (fun a b => priorityDesc_total a b) hpair hsub0
  have hc_self : (nodes.filter (fun n => n.recommended_priority == p)).filter
      (fun n => n.recommended_priority == p)
      = nodes.filter (fun n => n.recommended_priority == p) :=
    List.filter_eq_self.mpr (fun a ha => (List.mem_filter.mp ha).2)
  have hsub3 : List.Sublist (nodes.filter (fun n => n.recommended_priority == p))
      ((sortByPriorityDesc nodes).filter (fun n => n.recommended_priority == p)) := by
    have h4 := hsub2.filter (fun n => n.recommended_priority == p)
    rwa [hc_self] at h4
  have hlen : ((sortByPriorityDesc nodes).filter
      (fun n => n.recommended_priority == p)).length
      = (nodes.filter (fun n => n.recommended_priority == p)).length :=
    ((sortByPriorityDesc_perm nodes).filter _).length_eq
  exact (hsub3.eq_of_length hlen.symm).symm

/-- C4 (amended): when some node already carries the `master` role the
planner returns the node list unchanged, and its order is the stable
descending sort by score with ties kept in input order; without a
master-role node the fallback re-flags the top node in place. -/
theorem plan_deterministic_stable (nodes : List NodeCapabilities)
    (hm : ∃ m ∈ nodes, m.recommended_role = "master") :
    (∃ plan, build_deployment_plan nodes = .ok (plan, nodes)) ∧
      (sortByPriorityDesc nodes).Pairwise
        (fun a b => b.recommended_priority ≤ a.recommended_priority) ∧
      (sortByPriorityDesc nodes).Perm nodes ∧
      ∀ p : Int, (sortByPriorityDesc nodes).filter (fun n => n.recommended_priority == p)
        = nodes.filter (fun n => n.recommended_priority == p) := by
  refine ⟨?_, sortByPriorityDesc_sorted nodes, sortByPriorityDesc_perm nodes,
    fun p => sort_stable_filter nodes p⟩
  obtain ⟨m, hmm, hrole⟩ := hm
  have hsome : ((sortByPriorityDesc nodes).find?
      (fun n => n.recommended_role == "master")).isSome :=
    List.find?_isSome.mpr ⟨m, (sortByPriorityDesc_perm nodes).mem_iff.mpr hmm,
      by simp [hrole]⟩
  obtain ⟨m', hfind⟩ := Option.isSome_iff_exists.mp hsome
  exact ⟨mkPlan m' (sortByPriorityDesc nodes) nodes,
    by simp only [build_deployment_plan, hfind]⟩

unseal List.merge List.mergeSort in
/-- Counterexample to C4 as stated: with a single default worker node the
fallback mutates the input node's role, so the node list after planning
differs from the input. -/
theorem plan_mutates_input_without_master :
    ((build_deployment_plan [sampleWorker]).toOption.map Prod.snd)
        = some [{ sampleWorker with recommended_role := "master" }] ∧
      ({ sampleWorker with recommended_role := "master" } : NodeCapabilities)
        ≠ sampleWorker :=
  ⟨by decide, by decide⟩

/-- Witness for C4 on a master plus a worker. -/
theorem plan_deterministic_stable_witness :
    (∃ m ∈ ([sampleMasterA, sampleWorker] : List NodeCapabilities),
        m.recommended_role = "master") ∧
      ((∃ plan, build_deployment_plan [sampleMasterA, sampleWorker]
          = .ok (plan, [sampleMasterA, sampleWorker])) ∧
        (sortByPriorityDesc [sampleMasterA, sampleWorker]).Pairwise
          (fun a b => b.recommended_priority ≤ a.recommended_priority) ∧
        (sortByPriorityDesc [sampleMasterA, sampleWorker]).Perm
          [sampleMasterA, sampleWorker] ∧
        ∀ p : Int, (sortByPriorityDesc [sampleMasterA, sampleWorker]).filter
            (fun n => n.recommended_priority == p)
          = ([sampleMasterA, sampleWorker] : List NodeCapabilities).filter
            (fun n => n.recommended_priority == p)) :=
  ⟨⟨sampleMasterA, by decide, rfl⟩,
    plan_deterministic_stable [sampleMasterA, sampleWorker]
      ⟨sampleMasterA, by decide, rfl⟩⟩

unseal List.mergeSort in
/-- C9: planning over an empty node set raises (`sorted_nodes[0]` in the
fallback branch) instead of returning an empty plan. -/
theorem plan_empty_nodes_error :
    build_deployment_plan [] = .error "IndexError: list index out of range" := rfl

/-- C10: discovery over an empty host list is rejected by the worker
pool construction (`max_workers = min(0, 10) = 0`). -/
theorem discovery_empty_list_error (key : String) (remote : NodeInfo → RemoteHost) :
    discover_nodes key [] remote
      = .error "ValueError: max_workers must be greater than 0" := rfl

end Preflight
